import Mathlib

set_option maxRecDepth 4000

/-!
Verification development for the csx3dif geometry compiler.

The Rust sources are shallowly embedded: `f32` scalars are modelled by `ℚ`
(every concrete value used in a theorem below is chosen so that the `f32`
operations of the source evaluate exactly, hence agree with the rational
model), `usize`/`u32`/`u16` by `ℕ`, `i32` by `ℤ` where sign matters, and
panicking code paths by `Option`.  Mutable state (the builder's pools, the
shared considered-plane set) is threaded explicitly.
-/

/-- A 3-component vector of rationals, modelling `Point3F` (`cgmath::Vector3<f32>`). -/
structure Vec3 where
  x : ℚ
  y : ℚ
  z : ℚ
deriving DecidableEq, Repr

namespace Vec3

def add (a b : Vec3) : Vec3 := ⟨a.x + b.x, a.y + b.y, a.z + b.z⟩

def sub (a b : Vec3) : Vec3 := ⟨a.x - b.x, a.y - b.y, a.z - b.z⟩

def smul (a : Vec3) (q : ℚ) : Vec3 := ⟨a.x * q, a.y * q, a.z * q⟩

def dot (a b : Vec3) : ℚ := a.x * b.x + a.y * b.y + a.z * b.z

def neg (a : Vec3) : Vec3 := ⟨-a.x, -a.y, -a.z⟩

/-- Component access by axis index 0/1/2, modelling `v[i]` on `Vector3`. -/
def comp (a : Vec3) (i : ℕ) : ℚ :=
  if i = 0 then a.x else if i = 1 then a.y else a.z

/-- Functional update of the component with axis index 0/1/2, modelling `v[i] = q`. -/
def setComp (a : Vec3) (i : ℕ) (q : ℚ) : Vec3 :=
  if i = 0 then ⟨q, a.y, a.z⟩ else if i = 1 then ⟨a.x, q, a.z⟩ else ⟨a.x, a.y, q⟩

end Vec3

/-- Exact square root on `ℚ`: returns the rational square root when the argument
is a perfect square of a rational, and `0` otherwise.  This models `f32::sqrt`
of the source; every evaluation performed in this development is at a perfect
square, where the `f32` result is exact and equals this function's value. -/
def ratSqrt (q : ℚ) : ℚ :=
  if 0 ≤ q then
    let n := Nat.sqrt q.num.toNat
    let d := Nat.sqrt q.den
    if n * n = q.num.toNat ∧ d * d = q.den then (n : ℚ) / (d : ℚ) else 0
  else 0

/-- Euclidean distance, modelling `cgmath::MetricSpace::distance`. -/
def distQ (a b : Vec3) : ℚ := ratSqrt ((a.sub b).dot (a.sub b))

/-- Normalization `v / |v|`, modelling `cgmath::InnerSpace::normalize`. -/
def normalizeQ (v : Vec3) : Vec3 :=
  let m := ratSqrt (v.dot v)
  if m = 0 then v else v.smul (1 / m)

/-- An RGBA color with byte components, modelling `dif::types::ColorI`. -/
structure ColorI where
  r : ℕ
  g : ℕ
  b : ℕ
  a : ℕ
deriving DecidableEq, Repr

/-- Model of `make_color` in `light.rs`: builds a `ColorI` with alpha 255 from an RGB triple. -/
def makeColor (r g b : ℕ) : ColorI := ⟨r, g, b, 255⟩

/-- The eleven light variants of `light.rs`'s `enum Light`, with the same
fields in the same order. -/
inductive Light where
  | point (position : Vec3) (color : ColorI) (intensity falloffInner falloffOuter : ℚ)
  | spotLight (position : Vec3) (color : ColorI)
      (intensity falloffInner falloffOuter heading pitch angleInner angleOuter : ℚ)
  | emitterPoint (position : Vec3) (falloffType : ℕ) (falloff1 falloff2 falloff3 : ℚ)
  | emitterSpot (position : Vec3) (falloffType : ℕ) (falloff1 falloff2 falloff3 theta phi : ℚ)
  | flicker (position : Vec3) (color1 color2 color3 color4 color5 : ColorI)
      (speed falloff1 falloff2 : ℚ) (spawnflags : ℕ)
  | omni (position : Vec3) (color : ColorI) (falloff1 falloff2 : ℚ)
  | pulse (position : Vec3) (color1 color2 : ColorI) (speed falloff1 falloff2 : ℚ)
      (spawnflags : ℕ)
  | pulse2 (position : Vec3) (color1 color2 : ColorI)
      (falloff1 falloff2 attack decay sustain1 sustain2 : ℚ) (spawnflags : ℕ)
  | runway (position : Vec3) (color : ColorI) (speed : ℚ) (pingpong : Bool)
      (spawnflags steps : ℕ) (falloff1 falloff2 : ℚ)
  | spot (position : Vec3) (color : ColorI) (falloff1 falloff2 distance1 distance2 : ℚ)
  | strobe (position : Vec3) (color1 color2 : ColorI) (speed : ℚ) (spawnflags : ℕ)
      (falloff1 falloff2 : ℚ)
deriving DecidableEq, Repr

/-- A scene-entity property value, already split by kind: numeric properties
(parsed by `parse::<f32>` / `parse::<u32>` in the source) and space-separated
RGB color strings (parsed via `make_color`). -/
inductive EntProp where
  | numP (q : ℚ)
  | rgbP (r g b : ℕ)
deriving DecidableEq, Repr

/-- A scene entity (`csx::Entity`) restricted to the fields `Light::new` reads:
the class name, the optional origin and the property map. -/
structure Entity where
  classname : String
  origin : Option Vec3
  properties : List (String × EntProp)
deriving DecidableEq, Repr

/-- Model of `ent.properties.get(k)` followed by `unwrap_or(default-string).parse()`:
an absent key (or a key of the wrong kind, on which the source's
`parse(...).unwrap_or` also falls back) yields the numeric default that the
source's default string parses to. -/
def getNumProp (e : Entity) (k : String) (d : ℚ) : ℚ :=
  match (e.properties.filter (fun p => p.1 = k)).head? with
  | some (_, EntProp.numP q) => q
  | _ => d

/-- Color property lookup: an absent key yields the default RGB triple of the
source's default string. -/
def getColorProp (e : Entity) (k : String) (dr dg db : ℕ) : ColorI :=
  match (e.properties.filter (fun p => p.1 = k)).head? with
  | some (_, EntProp.rgbP r g b) => makeColor r g b
  | _ => makeColor dr dg db

/-- Model of `ent.origin.unwrap_or(Point3F::new(0,0,0))`. -/
def getOrigin (e : Entity) : Vec3 := e.origin.getD ⟨0, 0, 0⟩

/-- Model of `Light::new` from `light.rs`: dispatch on the class name, substituting each
arm's default whenever a property is absent.  The `panic!` on an unknown class
is modelled by `none`.  Rational literals stand for the source's decimal
literals (`0.2`, `0.4`, ...); the claims below only concern which default is
substituted, never `f32` rounding of the literal. -/
def lightNew (e : Entity) : Option Light :=
  if e.classname = "light_point" then
    some (.point (getOrigin e) (getColorProp e "color" 255 255 255)
      (getNumProp e "intensity" 100) (getNumProp e "falloff_inner" 1)
      (getNumProp e "falloff_outer" 10))
  else if e.classname = "light_spotlight" then
    some (.spotLight (getOrigin e) (getColorProp e "color" 255 255 255)
      (getNumProp e "intensity" 100) (getNumProp e "falloff_inner" 1)
      (getNumProp e "falloff_outer" 10) (getNumProp e "heading" 0)
      (getNumProp e "pitch" 0) (getNumProp e "angle_inner" 30)
      (getNumProp e "angle_outer" 60))
  else if e.classname = "light_emitter_point" then
    some (.emitterPoint (getOrigin e) (getNumProp e "falloff_type" 0).num.toNat
      (getNumProp e "falloff1" 0) (getNumProp e "falloff2" 10)
      (getNumProp e "falloff3" 100))
  else if e.classname = "light_emitter_spot" then
    some (.emitterSpot (getOrigin e) (getNumProp e "falloff_type" 0).num.toNat
      (getNumProp e "falloff1" 0) (getNumProp e "falloff2" 10)
      (getNumProp e "falloff3" 100) (getNumProp e "theta" (2/10))
      (getNumProp e "phi" (4/10)))
  else if e.classname = "light_flicker" then
    some (.flicker (getOrigin e) (getColorProp e "color1" 255 255 255)
      (getColorProp e "color2" 0 0 0) (getColorProp e "color3" 0 0 0)
      (getColorProp e "color4" 0 0 0) (getColorProp e "color5" 0 0 0)
      (getNumProp e "speed" 2) (getNumProp e "falloff1" 10)
      (getNumProp e "falloff2" 100) (getNumProp e "spawnflags" 3).num.toNat)
  else if e.classname = "light_omni" then
    some (.omni (getOrigin e) (getColorProp e "color" 255 255 255)
      (getNumProp e "falloff1" 1000) (getNumProp e "falloff2" 200))
  else if e.classname = "light_pulse" then
    some (.pulse (getOrigin e) (getColorProp e "color1" 255 255 255)
      (getColorProp e "color2" 0 0 0) (getNumProp e "speed" 2)
      (getNumProp e "falloff1" 10) (getNumProp e "falloff2" 100)
      (getNumProp e "spawnflags" 3).num.toNat)
  else if e.classname = "light_pulse2" then
    some (.pulse2 (getOrigin e) (getColorProp e "color1" 255 255 255)
      (getColorProp e "color2" 0 0 0) (getNumProp e "falloff1" 10)
      (getNumProp e "falloff2" 100) (getNumProp e "attack" 1)
      (getNumProp e "decay" 1) (getNumProp e "sustain1" 1)
      (getNumProp e "sustain2" 1) (getNumProp e "spawnflags" 3).num.toNat)
  else if e.classname = "light_runway" then
    some (.runway (getOrigin e) (getColorProp e "color" 255 255 255)
      (getNumProp e "speed" 2) (decide (getNumProp e "pingpong" 0 = 1))
      (getNumProp e "spawnflags" 3).num.toNat (getNumProp e "steps" 0).num.toNat
      (getNumProp e "falloff1" 10) (getNumProp e "falloff2" 100))
  else if e.classname = "light_spot" then
    some (.spot (getOrigin e) (getColorProp e "color" 255 255 255)
      (getNumProp e "falloff1" 10) (getNumProp e "falloff2" 100)
      (getNumProp e "distance1" 10) (getNumProp e "distance2" 100))
  else if e.classname = "light_strobe" then
    some (.strobe (getOrigin e) (getColorProp e "color1" 255 255 255)
      (getColorProp e "color2" 0 0 0) (getNumProp e "speed" 2)
      (getNumProp e "spawnflags" 3).num.toNat (getNumProp e "falloff1" 10)
      (getNumProp e "falloff2" 100))
  else none

/-- Model of `Light::calculate_intensity` from `light.rs`.  Implemented for the
`Point` and `Omni` variants exactly as in the source (including the early
`len > outer || len < inner` guard); all other variants `panic!`, modelled
by `none`. -/
def calculateIntensity (l : Light) (pt : Vec3) : Option ℚ :=
  match l with
  | .point position _ _ falloffInner falloffOuter =>
    let len := distQ position pt
    if len > falloffOuter ∨ len < falloffInner then some 0
    else if len > falloffInner then
      some (1 - (len - falloffInner) / (falloffOuter - falloffInner))
    else some 1
  | .omni position _ falloff1 falloff2 =>
    let len := distQ position pt
    if len > falloff2 ∨ len < falloff1 then some 0
    else if len > falloff1 then
      some (1 - (len - falloff1) / (falloff2 - falloff1))
    else some 1
  | _ => none

/-- Model of `Light::get_base_color`: normalized RGB for `Point`/`Omni`, `panic!`
(`none`) otherwise. -/
def getBaseColor (l : Light) : Option Vec3 :=
  match l with
  | .point _ color _ _ _ => some ⟨color.r / 255, color.g / 255, color.b / 255⟩
  | .omni _ color _ _ => some ⟨color.r / 255, color.g / 255, color.b / 255⟩
  | _ => none

/-- Model of `Light::get_position`: position for `Point`/`Omni`, `panic!` (`none`)
otherwise. -/
def getPosition (l : Light) : Option Vec3 :=
  match l with
  | .point position _ _ _ _ => some position
  | .omni position _ _ _ => some position
  | _ => none

/-- A plane `normal · p + distance = 0`, modelling `dif::types::PlaneF`. -/
structure PlaneQ where
  normal : Vec3
  distance : ℚ
deriving DecidableEq, Repr

/-- Model of list indexing `plane_list[i]`; the source's indices are always in
range, out-of-range access (a Rust panic) is given a dummy plane. -/
def planeAt (planeList : List PlaneQ) (i : ℕ) : PlaneQ :=
  planeList.getD i ⟨⟨0, 0, 0⟩, 0⟩

/-- Negating normal and distance, as in the `flipped_plane` construction of
`calculate_split_rating` and `clip_plane`. -/
def flipPlane (p : PlaneQ) : PlaneQ := ⟨p.normal.neg, -p.distance⟩

/-- A face of a BSP-side brush (`bsp.rs`'s `CSXFace`): supporting plane id,
winding indices into the brush's vertex list, global face id, and the
used-plane flag. -/
structure CSXFace where
  planeId : ℕ
  indices : List ℕ
  faceId : ℤ
  usedPlane : Bool
deriving DecidableEq, Repr

/-- A BSP-side brush (`bsp.rs`'s `CSXBrush`): vertex positions and faces. -/
structure CSXBrush where
  vertices : List Vec3
  faces : List CSXFace
deriving DecidableEq, Repr

/-- The five split-rating counters `(front, back, splits, coplanar,
tiny_windings)` accumulated by `calculate_split_rating`. -/
structure SplitRating where
  front : ℤ
  back : ℤ
  splits : ℤ
  coplanar : ℤ
  tiny : ℤ
deriving DecidableEq, Repr

/-- Component-wise sum, modelling the `reduce` combiner of `calc_plane_rating`. -/
def SplitRating.add (a b : SplitRating) : SplitRating :=
  ⟨a.front + b.front, a.back + b.back, a.splits + b.splits,
   a.coplanar + b.coplanar, a.tiny + b.tiny⟩

/-- The face loop of `calculate_split_rating` (run only when the candidate
plane id is not yet in the considered set): the first face whose plane id
equals the candidate yields `(0,1,0,1,0)`; otherwise the first face whose
plane value equals the flipped candidate (equal normal and distance negations,
compared exactly as `f32` `==` does) yields `(1,0,0,1,0)`. -/
def coplanarScan (planeList : List PlaneQ) (planeId : ℕ) : List CSXFace → Option SplitRating
  | [] => none
  | f :: fs =>
    if f.planeId = planeId then some ⟨0, 1, 0, 1, 0⟩
    else
      let faceValue := planeAt planeList f.planeId
      let flipped := flipPlane (planeAt planeList planeId)
      if faceValue.distance = flipped.distance ∧ faceValue.normal = flipped.normal then
        some ⟨1, 0, 0, 1, 0⟩
      else coplanarScan planeList planeId fs

/-- The vertex-distance part of `calculate_split_rating`: over the brush's
unique vertex indices track `max_front`/`min_back` of `normal·v + distance`
(both starting at `0.0`) and derive the `(front, back, splits, 0, tiny)`
flags with the configured epsilon (`BSP_CONFIG.epsilon`, passed explicitly
here). -/
def distanceRating (eps : ℚ) (planeList : List PlaneQ) (planeId : ℕ) (b : CSXBrush) :
    SplitRating :=
  let uniquePoints := ((b.faces.map (fun f => f.indices)).flatten).dedup
  let testPlane := planeAt planeList planeId
  let maxFront := uniquePoints.foldl
    (fun acc p =>
      let d := testPlane.normal.dot (b.vertices.getD p ⟨0, 0, 0⟩) + testPlane.distance
      if d > acc then d else acc) 0
  let minBack := uniquePoints.foldl
    (fun acc p =>
      let d := testPlane.normal.dot (b.vertices.getD p ⟨0, 0, 0⟩) + testPlane.distance
      if d < acc then d else acc) 0
  let front : ℤ := if maxFront > eps then 1 else 0
  let back : ℤ := if minBack < -eps then 1 else 0
  let splits : ℤ := if maxFront > eps ∧ minBack < -eps then 1 else 0
  let tiny : ℤ := if (maxFront > 0 ∧ maxFront < 1) ∨ (minBack < 0 ∧ minBack > -1) then 1 else 0
  ⟨front, back, splits, 0, tiny⟩

/-- Model of `CSXBrush::calculate_split_rating`, threading the shared
considered-plane set explicitly: when the candidate id is not yet considered
and the face scan finds a (co)planar face, its tuple is returned and the id is
inserted; otherwise the vertex-distance rating applies. -/
def calculateSplitRating (eps : ℚ) (planeList : List PlaneQ) (planeId : ℕ)
    (b : CSXBrush) (considered : List ℕ) : SplitRating × List ℕ :=
  if planeId ∈ considered then (distanceRating eps planeList planeId b, considered)
  else
    match coplanarScan planeList planeId b.faces with
    | some r => (r, planeId :: considered)
    | none => (distanceRating eps planeList planeId b, considered)

/-- Sequential traversal of the node's brush list, threading the shared
considered set and summing the per-brush ratings.  The source evaluates the
brushes with `par_iter` and a mutex-guarded set; this models one interleaving
(list order), and the theorems drawn from it do not depend on the order. -/
def splitRatingFold (eps : ℚ) (planeList : List PlaneQ) (planeId : ℕ) :
    List CSXBrush → List ℕ → SplitRating × List ℕ
  | [], c => (⟨0, 0, 0, 0, 0⟩, c)
  | b :: bs, c =>
    let rc := calculateSplitRating eps planeList planeId b c
    let rest := splitRatingFold eps planeList planeId bs rc.2
    (rc.1.add rest.1, rest.2)

/-- The summed rating of a candidate plane over a node's brush list, starting
(as `calc_plane_rating` does) from a fresh considered set. -/
def splitRatingSum (eps : ℚ) (planeList : List PlaneQ) (planeId : ℕ)
    (brushes : List CSXBrush) : SplitRating :=
  (splitRatingFold eps planeList planeId brushes []).1

/-- Model of `CSXBSPNode::calc_plane_rating`: the axis-aligned test (two of
three normal components below epsilon in absolute value) and the score
`5·coplanar − 5·splits − |front − back| − 1000·tiny + (5 if axial)`. -/
def calcPlaneRating (eps : ℚ) (planeList : List PlaneQ) (brushes : List CSXBrush)
    (planeId : ℕ) : ℤ :=
  let plane := planeAt planeList planeId
  let zeroCount : ℕ :=
    (if |plane.normal.x| < eps then 1 else 0) + (if |plane.normal.y| < eps then 1 else 0) +
      (if |plane.normal.z| < eps then 1 else 0)
  let axial := zeroCount = 2
  let r := splitRatingSum eps planeList planeId brushes
  5 * r.coplanar - 5 * r.splits - |r.front - r.back| - 1000 * r.tiny +
    (if axial then 5 else 0)

/-- The condition checked by the `assert!(plane_in_brush, "Not in brush??")`
at the head of `CSXBSPNode::split_brush_list`: SOME brush of the node contains
a face whose plane id is the chosen splitter. -/
def planeInBrushList (brushes : List CSXBrush) (planeId : ℕ) : Bool :=
  brushes.any (fun b => b.faces.any (fun f => f.planeId == planeId))

/-- The candidate-splitter pool of a node: the plane ids of all faces with
`used_plane == false`, exactly the `chosen_planes` collection of
`select_best_splitter`.  Both selection strategies (`Fast` samples a subset of
this list; `Exhaustive` buckets a subset of it and takes per-bucket medians)
return an element of this list whenever they return a plane. -/
def nodeCandidatePlanes (brushes : List CSXBrush) : List ℕ :=
  (((brushes.map (fun b => b.faces)).flatten).filter (fun f => !f.usedPlane)).map
    (fun f => f.planeId)

/-- A tagged child reference `{leaf:1, solid:1, index:30}` in the linked BSP
(`dif::interior::BSPIndex`). -/
structure BSPIndexT where
  leaf : Bool
  solid : Bool
  index : ℕ
deriving DecidableEq, Repr

/-- The shared empty-leaf sentinel `{leaf: true, solid: false, index: 0}`. -/
def emptyLeafIndex : BSPIndexT := ⟨true, false, 0⟩

/-- A linked interior BSP node (`dif::interior::BSPNode`). -/
structure BSPNodeT where
  frontIndex : BSPIndexT
  backIndex : BSPIndexT
  planeIndex : ℕ
deriving DecidableEq, Repr

/-- A linked solid leaf (`dif::interior::BSPSolidLeaf`). -/
structure BSPSolidLeafT where
  surfaceCount : ℕ
  surfaceIndex : ℕ
deriving DecidableEq, Repr

/-- A pooled plane record `{normal_index, plane_distance}` (`dif::interior::Plane`). -/
structure PlaneRec where
  normalIndex : ℕ
  planeDistance : ℚ
deriving DecidableEq, Repr

/-- An output surface, restricted to the only field the embedded functions
read from it (`surface.plane_index`, flip bit included). -/
structure SurfaceRec where
  planeIndex : ℕ
deriving DecidableEq, Repr

/-- The linked `Interior`, restricted to the arrays the embedded functions
touch.  `solid_leaf_surfaces` holds `PossiblyNullSurfaceIndex` values:
`some` is `NonNull`, `none` is `Null`. -/
structure InteriorT where
  bspNodes : List BSPNodeT
  bspSolidLeaves : List BSPSolidLeafT
  solidLeafSurfaces : List (Option ℕ)
  surfaces : List SurfaceRec
  planes : List PlaneRec
  normals : List Vec3
deriving DecidableEq, Repr

/-- Comparison against `0.0`, modelling `f32::total_cmp(&0.0)` on the rational
image of the computed value.  (`total_cmp` additionally distinguishes `-0.0`
from `+0.0`; `ℚ` has a single zero, which corresponds to the `+0.0` bit
pattern, the one produced by the exact computations evaluated below.) -/
def cmpQ (a b : ℚ) : Ordering :=
  if a < b then Ordering.lt else if a = b then Ordering.eq else Ordering.gt

/-- Model of the coverage auditor's traversal `Interior::bsp_ray_cast` from
`builder.rs`.  The source recurses on child indices without an explicit bound;
the recursion depth of any run is bounded by the tree height, so the model
takes a fuel argument and the theorems are stated with enough fuel.  Fuel
exhaustion returns `false` (never reached at the depths evaluated here). -/
def bspRayCast (itr : InteriorT) :
    ℕ → BSPIndexT → ℕ → Vec3 → Vec3 → Bool
  | 0, _, _, _, _ => false
  | fuel + 1, node, planeIndex, start, stop =>
    if !node.leaf then
      let nodeValue := itr.bspNodes.getD node.index ⟨emptyLeafIndex, emptyLeafIndex, 0⟩
      let nodePlaneIndex := nodeValue.planeIndex
      let planeFlipped := nodePlaneIndex &&& 0x8000 ≠ 0
      let planeValue := itr.planes.getD (nodePlaneIndex &&& 0x7FFF) ⟨0, 0⟩
      let planeNorm0 := itr.normals.getD planeValue.normalIndex ⟨0, 0, 0⟩
      let planeNorm := if planeFlipped then planeNorm0.neg else planeNorm0
      let planeD := if planeFlipped then -planeValue.planeDistance else planeValue.planeDistance
      let sSideValue := planeNorm.dot start + planeD
      let eSideValue := planeNorm.dot stop + planeD
      match cmpQ sSideValue 0, cmpQ eSideValue 0 with
      | Ordering.gt, Ordering.gt | Ordering.gt, Ordering.eq | Ordering.eq, Ordering.gt =>
        bspRayCast itr fuel nodeValue.frontIndex planeIndex start stop
      | Ordering.gt, Ordering.lt =>
        let intersectT := (-planeD - start.dot planeNorm) / ((stop.sub start).dot planeNorm)
        let ip := start.add ((stop.sub start).smul intersectT)
        if bspRayCast itr fuel nodeValue.frontIndex planeIndex start ip then true
        else bspRayCast itr fuel nodeValue.backIndex nodeValue.planeIndex ip stop
      | Ordering.lt, Ordering.gt =>
        let intersectT := (-planeD - start.dot planeNorm) / ((stop.sub start).dot planeNorm)
        let ip := start.add ((stop.sub start).smul intersectT)
        if bspRayCast itr fuel nodeValue.backIndex planeIndex start ip then true
        else bspRayCast itr fuel nodeValue.frontIndex nodeValue.planeIndex ip stop
      | Ordering.lt, Ordering.lt | Ordering.lt, Ordering.eq | Ordering.eq, Ordering.lt =>
        bspRayCast itr fuel nodeValue.backIndex planeIndex start stop
      | Ordering.eq, Ordering.eq =>
        if bspRayCast itr fuel nodeValue.frontIndex planeIndex start stop then true
        else if bspRayCast itr fuel nodeValue.backIndex planeIndex start stop then true
        else false
    else if node.solid then
      let leaf := itr.bspSolidLeaves.getD node.index ⟨0, 0⟩
      let leafSurfaces := (itr.solidLeafSurfaces.drop leaf.surfaceIndex).take leaf.surfaceCount
      let found := leafSurfaces.foldl
        (fun acc s =>
          match s with
          | some sIndex =>
            if (itr.surfaces.getD sIndex ⟨0⟩).planeIndex &&& 0x7FFF = planeIndex &&& 0x7FFF then
              acc + 1
            else acc
          | none => acc) (0 : ℕ)
      decide (found ≠ 0)
    else false

/-- Saturating cast of a rational to `u32` after `floor`, modelling
`self.x.floor() as u32` in `OrdPoint`'s `Hash` (Rust float-to-int casts
saturate, and negative values go to `0`). -/
def floorToU32 (q : ℚ) : ℕ :=
  if ⌊q⌋ < 0 then 0 else if ⌊q⌋ > 4294967295 then 4294967295 else ⌊q⌋.toNat

/-- The coarse hash value fed to the hasher by `impl Hash for OrdPoint`:
`((x.floor() as u32 >> 5) & 0xf) << 8 | ... << 4 | ...`. -/
def ordPointHash (p : Vec3) : ℕ :=
  (((floorToU32 p.x >>> 5) &&& 0xf) <<< 8) |||
    (((floorToU32 p.y >>> 5) &&& 0xf) <<< 4) |||
    ((floorToU32 p.z >>> 5) &&& 0xf)

/-- Approximate point equality of `impl PartialEq for OrdPoint`:
component-wise `abs_diff_eq` (that is `|Δ| ≤ POINT_EPSILON`). -/
def ordPointEq (eps : ℚ) (a b : Vec3) : Bool :=
  |a.x - b.x| ≤ eps ∧ |a.y - b.y| ≤ eps ∧ |a.z - b.z| ≤ eps

/-- The point pool of the builder: the `point_map` (`HashMap<OrdPoint,
PointIndex>`, modelled as its entries in insertion order) and the
`interior.points` / `point_visibilities` arrays. -/
structure PointPool where
  pointMap : List (Vec3 × ℕ)
  points : List Vec3
  pointVisibilities : List ℕ
deriving DecidableEq, Repr

/-- A `HashMap` probe for `point_map.get(&OrdPoint::from(p))`: the lookup
hashes the key, scans its bucket and compares with `OrdPoint::eq`, so an entry
is found exactly when its coarse hash value and the approximate equality both
match; entries whose coarse hash differs live in a different bucket and are
never compared.  When several entries match, the model returns the first
inserted one (the source's choice among equal matches is unspecified; no claim
below depends on it). -/
def lookupPoint (eps : ℚ) (pool : PointPool) (p : Vec3) : Option ℕ :=
  (pool.pointMap.find? fun e => ordPointHash e.1 == ordPointHash p && ordPointEq eps e.1 p).map
    fun e => e.2

/-- Model of `DIFBuilder::export_point`: return the mapped index on a hit,
otherwise allocate the next index, push the point (and a `0xff` visibility)
and record the mapping. -/
def exportPoint (eps : ℚ) (pool : PointPool) (p : Vec3) : ℕ × PointPool :=
  match lookupPoint eps pool p with
  | some i => (i, pool)
  | none =>
    let index := pool.points.length
    (index,
      { pointMap := pool.pointMap ++ [(p, index)],
        points := pool.points ++ [p],
        pointVisibilities := pool.pointVisibilities ++ [255] })

/-- Interning a list of points in order, returning the assigned indices and
the final pool (used to run `export_point` over a whole build). -/
def internPoints (eps : ℚ) : List Vec3 → PointPool → List ℕ × PointPool
  | [], pool => ([], pool)
  | p :: ps, pool =>
    let r := exportPoint eps pool p
    let rest := internPoints eps ps r.2
    (r.1 :: rest.1, rest.2)

/-- The empty builder point pool. -/
def emptyPointPool : PointPool := ⟨[], [], []⟩

/-- The vertex-emission loop of `export_surface`: for `i < 2` push
`hull_points[winding[i]]`; for `i ≥ 2` even push
`hull_points[winding[N−1−(i−2)/2]]` and odd push
`hull_points[winding[(i+1)/2]]` (`N` the winding length).  Out-of-range
indexing is a Rust panic; the source's indices are always in range, and the
`getD` default is never consulted in the theorems below. -/
def exportSurfaceIndices (hullPoints winding : List ℕ) : List ℕ :=
  (List.range winding.length).map fun i =>
    if i ≥ 2 then
      if i % 2 = 0 then
        hullPoints.getD (winding.getD (winding.length - 1 - (i - 2) / 2) 0) 0
      else
        hullPoints.getD (winding.getD ((i + 1) / 2) 0) 0
    else hullPoints.getD (winding.getD i 0) 0

/-- The fan-mask loop of `export_surface`: `for i in 0..N { mask |= 1 << i }`. -/
def fanMask (n : ℕ) : ℕ := (List.range n).foldl (fun m i => m ||| (1 <<< i)) 0

/-- A scene brush (`csx::Brush`) restricted to the fields the interior-split
loop of `convert_csx` reads: the type tag, the owner id, and the number of
faces (`b.face.len()`). -/
structure SceneBrush where
  typeTag : ℕ
  owner : ℕ
  faceCount : ℕ
deriving DecidableEq, Repr

/-- The detail-level attributes a fresh `DIFBuilder` receives in
`convert_csx`: ambient colors, `light_scale` (lumel scale) and `brush_scale`
(geometry scale). -/
structure DetailCfg where
  ambientColor : Vec3
  ambientColorEmerg : Vec3
  lightScale : ℕ
  brushScale : ℕ
deriving DecidableEq, Repr

/-- A `DIFBuilder` restricted to the state the interior-split loop
manipulates: the four inherited attributes, the light list and the added
brushes. -/
structure BuilderB where
  ambientColor : Vec3
  ambientColorEmerg : Vec3
  lumelScale : ℕ
  geometryScale : ℕ
  lights : List Light
  brushes : List SceneBrush
deriving DecidableEq, Repr

/-- Construction of a fresh builder in `convert_csx`: `DIFBuilder::new`
followed by `set_ambient`, `set_lumel_scale`, `set_geometry_scale`,
`set_lights` with the detail level's attributes. -/
def newBuilderB (d : DetailCfg) (lights : List Light) : BuilderB :=
  ⟨d.ambientColor, d.ambientColorEmerg, d.lightScale, d.brushScale, lights, []⟩

/-- The brush filter of `convert_csx`:
`(b.type_ != 999 && b.type_ != 4) || b.owner == 0`. -/
def brushFilter (b : SceneBrush) : Bool :=
  (b.typeTag != 999 && b.typeTag != 4) || b.owner == 0

/-- The running state of the interior-split loop: the current builder, the
running face count, and the interiors flushed so far (each represented by the
builder that produced it, since `build` consumes the builder). -/
structure ConvertState where
  curBuilder : BuilderB
  curFaceCount : ℕ
  splitInteriors : List BuilderB
deriving DecidableEq, Repr

/-- One iteration of the interior-split loop of `convert_csx` on a brush that
passed the filter: if the running face count plus the brush's face count
exceeds 16383, flush the current builder and start a fresh one inheriting the
detail level's attributes and lights; then add the brush's face count and the
brush itself to the current builder. -/
def convertStep (d : DetailCfg) (lights : List Light) (st : ConvertState) (b : SceneBrush) :
    ConvertState :=
  let st1 :=
    if st.curFaceCount + b.faceCount > 16383 then
      { curBuilder := newBuilderB d lights, curFaceCount := 0,
        splitInteriors := st.splitInteriors ++ [st.curBuilder] }
    else st
  { st1 with
    curFaceCount := st1.curFaceCount + b.faceCount,
    curBuilder := { st1.curBuilder with brushes := st1.curBuilder.brushes ++ [b] } }

/-- The interior-split loop run over a detail level's (filtered) brush list. -/
def convertLoop (d : DetailCfg) (lights : List Light) (bs : List SceneBrush) : ConvertState :=
  (bs.filter brushFilter).foldl (convertStep d lights) ⟨newBuilderB d lights, 0, []⟩

/-- The coarse hash value fed to the hasher by `impl Hash for OrdPlaneF`:
quantized magnitudes of the largest normal component and the distance,
multiplied, cast to `u32` and reduced mod `1 << 12`. -/
def ordPlaneHash (p : PlaneQ) : ℕ :=
  let mul0 := max |p.normal.x| (max |p.normal.y| |p.normal.z|)
  let mul := ⌊mul0 * 100 + 1/2⌋ / (100 : ℚ)
  let val := mul * ((⌊|p.distance| * 100 + 1/2⌋ : ℚ) / 100)
  floorToU32 val % 4096

/-- Approximate plane equality of `impl PartialEq for OrdPlaneF`:
`n·n' > 0.999` and `|d − d'| ≤ PLANE_EPSILON`. -/
def ordPlaneEq (planeEps : ℚ) (a b : PlaneQ) : Bool :=
  a.normal.dot b.normal > 999 / 1000 ∧ |a.distance - b.distance| ≤ planeEps

/-- A `HashMap` probe for `plane_map.get(&OrdPlaneF::from(p))`, in the same
model as `lookupVecMap`: found exactly when coarse hash and approximate
equality both match, first inserted match wins. -/
def lookupPlaneMap (planeEps : ℚ) (m : List (PlaneQ × ℕ)) (p : PlaneQ) : Option ℕ :=
  (m.find? fun e => ordPlaneHash e.1 == ordPlaneHash p && ordPlaneEq planeEps e.1 p).map
    fun e => e.2

/-- A `HashMap` probe for the `normal_map` (`HashMap<OrdPoint, NormalIndex>`),
same model as `lookupPoint`. -/
def lookupVecMap (eps : ℚ) (m : List (Vec3 × ℕ)) (p : Vec3) : Option ℕ :=
  (m.find? fun e => ordPointHash e.1 == ordPointHash p && ordPointEq eps e.1 p).map
    fun e => e.2

/-- The builder state the BSP linker (`export_bsp_node` / `export_plane`)
manipulates: the output interior arrays, the `normal2s` array, the plane and
normal maps, the face-id-to-surface-index map and the `mb_only` flag. -/
structure LinkState where
  interior : InteriorT
  normal2s : List Vec3
  planeMap : List (PlaneQ × ℕ)
  normalMap : List (Vec3 × ℕ)
  faceToSurface : List (ℤ × ℕ)
  mbOnly : Bool
deriving DecidableEq, Repr

/-- Model of `DIFBuilder::export_plane`: exact-map hit returns the stored
index; a hit on the negated plane returns the stored index with the `0x8000`
flip bit; otherwise a new plane is allocated, interning the normal separately
(the `planes.len() < 0x10000` assertion of the source is a capacity check not
modelled here). -/
def exportPlane (pointEps planeEps : ℚ) (st : LinkState) (p : PlaneQ) : ℕ × LinkState :=
  match lookupPlaneMap planeEps st.planeMap p with
  | some pval => (pval, st)
  | none =>
    let pinv := flipPlane p
    match lookupPlaneMap planeEps st.planeMap pinv with
    | some pval => (pval ||| 0x8000, st)
    | none =>
      let index := st.interior.planes.length
      match lookupVecMap pointEps st.normalMap p.normal with
      | some nidx =>
        let st1 := { st with
          interior := { st.interior with
            planes := st.interior.planes ++ [(⟨nidx, p.distance⟩ : PlaneRec)] } }
        (index, { st1 with planeMap := st1.planeMap ++ [(p, index)] })
      | none =>
        let normalIndex := st.interior.normals.length
        let st1 := { st with
          normalMap := st.normalMap ++ [(p.normal, normalIndex)],
          normal2s := if !st.mbOnly then st.normal2s ++ [p.normal] else st.normal2s,
          interior := { st.interior with
            normals := st.interior.normals ++ [p.normal],
            planes := st.interior.planes ++ [(⟨normalIndex, p.distance⟩ : PlaneRec)] } }
        (index, { st1 with planeMap := st1.planeMap ++ [(p, index)] })

mutual

/-- The in-memory BSP tree consumed by the linker (`bsp.rs`'s `CSXBSPNode`):
brush list, optional children, optional splitter plane and the solid flag. -/
inductive CSXNode where
  | mk (brushList : List CSXBrush) (front : CSXChild) (back : CSXChild)
      (planeIndex : Option ℕ) (solid : Bool)

/-- An optional child (`Option<Box<CSXBSPNode>>`). -/
inductive CSXChild where
  | noChild
  | child (n : CSXNode)

end

/-- The surface-gathering loop of `export_bsp_node` on a terminal solid node:
for every face of every remaining brush, look up its exported surface index
(`face_to_surface.get(&f.id).unwrap()`, an exact-key map; total on the faces
that occur) and keep the first occurrence of each index, in encounter order. -/
def gatherLeafSurfaces (f2s : List (ℤ × ℕ)) (brushes : List CSXBrush) : List ℕ :=
  ((brushes.map fun b => b.faces).flatten).foldl
    (fun acc f =>
      let surfIndex := ((f2s.find? fun e => e.1 == f.faceId).map fun e => e.2).getD 0
      if surfIndex ∈ acc then acc else acc ++ [surfIndex])
    []

mutual

/-- Model of `DIFBuilder::export_bsp_node`: a terminal node that is solid
gathers its unique surfaces and either returns the empty-leaf sentinel (when
no surface was gathered) or pushes a `BSPSolidLeaf`; a terminal empty node
returns the sentinel; an interior node reserves its slot, exports its plane,
links both children and writes back the masked plane index, swapping the
children when the flip bit was set. -/
def exportBspNode (pointEps planeEps : ℚ) (planeRemap : List PlaneQ) :
    CSXNode → LinkState → BSPIndexT × LinkState
  | CSXNode.mk brushList front back planeIdx solid, st =>
    match planeIdx with
    | none =>
      if solid then
        let surfaceIndex := st.interior.solidLeafSurfaces.length
        let gathered := gatherLeafSurfaces st.faceToSurface brushList
        if gathered.length = 0 then (emptyLeafIndex, st)
        else
          let leafIndex := st.interior.bspSolidLeaves.length
          (⟨true, true, leafIndex⟩,
            { st with
              interior := { st.interior with
                solidLeafSurfaces := st.interior.solidLeafSurfaces ++ gathered.map some,
                bspSolidLeaves :=
                  st.interior.bspSolidLeaves ++ [⟨gathered.length, surfaceIndex⟩] } })
      else (emptyLeafIndex, st)
    | some pIdx =>
      let nodeIndex := st.interior.bspNodes.length
      let st0 := { st with
        interior := { st.interior with
          bspNodes := st.interior.bspNodes ++ [⟨emptyLeafIndex, emptyLeafIndex, 0⟩] } }
      let nodePlane := planeAt planeRemap pIdx
      let pr := exportPlane pointEps planeEps st0 nodePlane
      let planeFlipped := pr.1 &&& 0x8000 ≠ 0
      let fr := exportBspChild pointEps planeEps planeRemap front pr.2
      let br := exportBspChild pointEps planeEps planeRemap back fr.2
      let newNode : BSPNodeT :=
        if planeFlipped then ⟨br.1, fr.1, pr.1 &&& 0x7FFF⟩
        else ⟨fr.1, br.1, pr.1 &&& 0x7FFF⟩
      (⟨false, false, nodeIndex⟩,
        { br.2 with
          interior := { br.2.interior with
            bspNodes := br.2.interior.bspNodes.set nodeIndex newNode } })

/-- Linking of an optional child: `None` yields the empty-leaf sentinel. -/
def exportBspChild (pointEps planeEps : ℚ) (planeRemap : List PlaneQ) :
    CSXChild → LinkState → BSPIndexT × LinkState
  | CSXChild.noChild, st => (emptyLeafIndex, st)
  | CSXChild.child n, st => exportBspNode pointEps planeEps planeRemap n st

end

/-- An RGB8 pixel of the emitted PNG lightmap. -/
structure RGB where
  r : ℕ
  g : ℕ
  b : ℕ
deriving DecidableEq, Repr

/-- Saturating cast of a rational to `u8` after truncation toward zero,
modelling Rust's `f32 as u8`. -/
def ratToU8 (q : ℚ) : ℕ :=
  if ⌊q⌋ < 0 then 0 else min 255 ⌊q⌋.toNat

/-- Model of `empty_lightmap(r, g, b)` in `builder.rs`: a 256×256 image whose
every pixel is `(r, g, b)`, represented by its pixel lookup function. -/
def emptyLightmap (r g b : ℕ) : ℕ → ℕ → RGB := fun _ _ => ⟨r, g, b⟩

/-- Model of the lightmap-pushing loop at the end of
`DIFBuilder::compute_lightmaps` (the `for _ in 0..lmaps_needed` loop): each
iteration pushes `empty_lightmap(ambient)`.  The `LightMap::new` invocation is
commented out in the source, so the pushed images do not depend on `lights`;
the parameter is retained because the claim quantifies over it. -/
def computeLightmapsLightMaps (_lights : List Light) (ambient : Vec3) (lmapsNeeded : ℕ) :
    List (ℕ → ℕ → RGB) :=
  (List.range lmapsNeeded).map fun _ =>
    emptyLightmap (ratToU8 ambient.x) (ratToU8 ambient.y) (ratToU8 ambient.z)

/-- A lightmap surface record (`lightmap.rs`'s `LightmapSurface`). -/
structure LightmapSurfaceT where
  surfaceIndex : ℕ
  sc : Vec3
  tc : Vec3
  dx : ℚ
  dy : ℚ
  offsetX : ℕ
  offsetY : ℕ
  width : ℕ
  height : ℕ
  normal : Vec3
  triPoints : List Vec3
  lightmapIndex : ℕ
deriving DecidableEq, Repr

/-- Whether the rasterizer can bake this light: `calculate_intensity`,
`get_base_color` and `get_position` are implemented (only) for the `Point`
and `Omni` variants; every other variant panics. -/
def isBakeable : Light → Bool
  | Light.point _ _ _ _ _ => true
  | Light.omni _ _ _ _ => true
  | _ => false

/-- The `(si, ti, axis)` selection at the head of the rasterizer loop of
`LightMap::new`, keyed on which components of `sc`/`tc` vanish; the final
`panic!("Bad texgens for lightmap!")` is `none`. -/
def surfAxes (surf : LightmapSurfaceT) : Option (ℕ × ℕ × ℕ) :=
  if surf.sc.x = 0 ∧ surf.tc.x = 0 then
    if surf.sc.y = 0 then some (2, 1, 0) else some (1, 2, 0)
  else if surf.sc.y = 0 ∧ surf.tc.y = 0 then
    if surf.sc.x = 0 then some (2, 0, 1) else some (0, 2, 1)
  else if surf.sc.z = 0 ∧ surf.tc.z = 0 then
    if surf.sc.x = 0 then some (1, 0, 2) else some (0, 1, 2)
  else none

/-- Model of `x.clamp(-1.0, 1.0).acos().tan()` through the identity
`tan(arccos c) = sqrt(1 − c²) / c` (valid for `c ≠ 0`; exact whenever
`1 − c²` is a perfect square, in particular at `c = ±1` where the value is
`0`).  The `c = 0` guard value is never evaluated in this development. -/
def tanAcosQ (x : ℚ) : ℚ :=
  let c := min 1 (max (-1) x)
  if c = 0 then 0 else ratSqrt (1 - c ^ 2) / c

/-- The per-lumel light accumulation of the rasterizer inner loop: for every
light, attenuation from `calculate_intensity`, shadow ray from the light
position to just short of the lumel through `Interior::bsp_ray_cast` when
attenuation ≥ 0.01, accumulate `base_color · attenuation`.  The callers
guarantee every light is bakeable, so the `getD` defaults standing for the
source's panics are never consulted. -/
def lumelColor (itr : InteriorT) (lights : List Light) (wp : Vec3) : Vec3 :=
  lights.foldl
    (fun acc light =>
      let att0 := (calculateIntensity light wp).getD 0
      let lightColor := (getBaseColor light).getD ⟨0, 0, 0⟩
      let att :=
        if att0 ≥ 1 / 100 then
          let lightPos := (getPosition light).getD ⟨0, 0, 0⟩
          let dir := normalizeQ (lightPos.sub wp)
          let stop := wp.sub (dir.smul (1 / 10))
          if bspRayCast itr (itr.bspNodes.length + 1) ⟨false, false, 0⟩ 65535 lightPos stop
          then 0 else att0
        else att0
      acc.add (lightColor.smul att))
    ⟨0, 0, 0⟩

/-- Functional pixel store for the rasterizer's `pixels[y * atlas + x] = c`. -/
def setPixel (px : ℕ → ℕ → ColorI) (x y : ℕ) (c : ColorI) : ℕ → ℕ → ColorI :=
  fun a b => if a = x ∧ b = y then c else px a b

/-- Byte conversion of an accumulated channel:
`(v.clamp(0.0, 1.0) * 255.0) as u8`. -/
def colorByte (q : ℚ) : ℕ := ratToU8 (min (max q 0) 1 * 255)

/-- The per-surface rasterization of `LightMap::new`: select `(si, ti, axis)`,
build the s/t stepping vectors from the surface normal (the source's computed
`start` point is immediately shadowed by `tri_points[0]`, which is kept here
faithfully), then walk the packed rectangle row by row, writing each lumel's
accumulated color with the alpha-255 filled marker. -/
def rasterizeSurface (itr : InteriorT) (lights : List Light) (lumelScale : ℕ)
    (surf : LightmapSurfaceT) (px0 : ℕ → ℕ → ColorI) : Option (ℕ → ℕ → ColorI) :=
  match surfAxes surf with
  | none => none
  | some (si, ti, axis) =>
    let planeDist := -(surf.normal.dot (surf.triPoints.getD 0 ⟨0, 0, 0⟩))
    let start0 := (((⟨0, 0, 0⟩ : Vec3).setComp si (-surf.dx * (lumelScale : ℚ))).setComp ti
      (-surf.dy * (lumelScale : ℚ)))
    let _start := start0.setComp axis
      (surf.normal.comp si * start0.comp si + surf.normal.comp ti * start0.comp ti + planeDist)
    let sVec0 := ((⟨0, 0, 0⟩ : Vec3).setComp si 1).setComp ti 0
    let tVec0 := ((⟨0, 0, 0⟩ : Vec3).setComp ti 1).setComp si 0
    let pn1 := normalizeQ (surf.normal.setComp ti 0)
    let sVec1 := sVec0.setComp axis
      (if pn1.comp si < 0 then -(tanAcosQ (pn1.comp axis)) else tanAcosQ (pn1.comp axis))
    let pn2 := normalizeQ (surf.normal.setComp si 0)
    let tVec1 := tVec0.setComp axis
      (if pn2.comp ti < 0 then -(tanAcosQ (pn2.comp axis)) else tanAcosQ (pn2.comp axis))
    let sVec := sVec1.smul (lumelScale : ℚ)
    let tVec := tVec1.smul (lumelScale : ℚ)
    let sRun := sVec.smul (surf.width : ℚ)
    let wp0 := surf.triPoints.getD 0 ⟨0, 0, 0⟩
    let res := (List.range surf.height).foldl
      (fun (acc : Vec3 × (ℕ → ℕ → ColorI)) dy =>
        let rowRes := (List.range surf.width).foldl
          (fun (acc2 : Vec3 × (ℕ → ℕ → ColorI)) dx =>
            let c := lumelColor itr lights acc2.1
            let px := setPixel acc2.2 (surf.offsetX + dx) (surf.offsetY + dy)
              ⟨colorByte c.x, colorByte c.y, colorByte c.z, 255⟩
            (acc2.1.add sVec, px))
          acc
        ((rowRes.1.sub sRun).add tVec, rowRes.2))
      (wp0, px0)
    some res.2

/-- Model of the active pixel-producing part of `LightMap::new` from
`lightmap.rs`: starting from an all-zero (alpha 0) atlas, rasterize every
surface assigned to the requested atlas.  A non-bakeable light or a bad axis
pair is a source panic, modelled by `none`. -/
def lightMapNewPixels (itr : InteriorT) (surfs : List LightmapSurfaceT) (lights : List Light)
    (lmapIndex lumelScale : ℕ) : Option (ℕ → ℕ → ColorI) :=
  if !(lights.all isBakeable) then none
  else
    surfs.foldl
      (fun acc surf =>
        match acc with
        | none => none
        | some px =>
          if surf.lightmapIndex == lmapIndex then
            rasterizeSurface itr lights lumelScale surf px
          else some px)
      (some fun _ _ => ⟨0, 0, 0, 0⟩)

/-- The helper values `(plane_norm, plane_d)` (flip bit applied) that
`Interior::bsp_ray_cast` computes for an interior node; factored out so the
ray-cast theorems can speak about the node's signed distances. -/
def nodePlaneVals (itr : InteriorT) (nodeIndex : ℕ) : Vec3 × ℚ :=
  let nodeValue := itr.bspNodes.getD nodeIndex ⟨emptyLeafIndex, emptyLeafIndex, 0⟩
  let nodePlaneIndex := nodeValue.planeIndex
  let planeFlipped := nodePlaneIndex &&& 0x8000 ≠ 0
  let planeValue := itr.planes.getD (nodePlaneIndex &&& 0x7FFF) ⟨0, 0⟩
  let planeNorm0 := itr.normals.getD planeValue.normalIndex ⟨0, 0, 0⟩
  (if planeFlipped then planeNorm0.neg else planeNorm0,
    if planeFlipped then -planeValue.planeDistance else planeValue.planeDistance)

/-- The plane list of the L-shape scene (two unit cubes sharing the face
`x = 1`), as `build_bsp` constructs it: one plane per face, never
deduplicated, cube A owning ids 0–5 and cube B ids 6–11.  Plane 6 is exactly
the negation of plane 0. -/
def lShapePlanes : List PlaneQ :=
  [⟨⟨1, 0, 0⟩, -1⟩, ⟨⟨-1, 0, 0⟩, 0⟩, ⟨⟨0, 1, 0⟩, -1⟩, ⟨⟨0, -1, 0⟩, 0⟩,
   ⟨⟨0, 0, 1⟩, -1⟩, ⟨⟨0, 0, -1⟩, 0⟩,
   ⟨⟨-1, 0, 0⟩, 1⟩, ⟨⟨1, 0, 0⟩, -2⟩, ⟨⟨0, 1, 0⟩, -1⟩, ⟨⟨0, -1, 0⟩, 0⟩,
   ⟨⟨0, 0, 1⟩, -1⟩, ⟨⟨0, 0, -1⟩, 0⟩]

/-- Cube A of the L-shape scene: the unit cube on `[0,1]³`. -/
def cubeA : CSXBrush :=
  { vertices := [⟨0, 0, 0⟩, ⟨1, 0, 0⟩, ⟨1, 1, 0⟩, ⟨0, 1, 0⟩,
                 ⟨0, 0, 1⟩, ⟨1, 0, 1⟩, ⟨1, 1, 1⟩, ⟨0, 1, 1⟩],
    faces := [⟨0, [1, 2, 6, 5], 0, false⟩, ⟨1, [0, 4, 7, 3], 1, false⟩,
              ⟨2, [2, 3, 7, 6], 2, false⟩, ⟨3, [0, 1, 5, 4], 3, false⟩,
              ⟨4, [4, 5, 6, 7], 4, false⟩, ⟨5, [0, 3, 2, 1], 5, false⟩] }

/-- Cube B of the L-shape scene: the unit cube on `[1,2] × [0,1]²`, sharing
the `x = 1` face with cube A (its face 6 lies on the flipped plane of id 0). -/
def cubeB : CSXBrush :=
  { vertices := [⟨1, 0, 0⟩, ⟨2, 0, 0⟩, ⟨2, 1, 0⟩, ⟨1, 1, 0⟩,
                 ⟨1, 0, 1⟩, ⟨2, 0, 1⟩, ⟨2, 1, 1⟩, ⟨1, 1, 1⟩],
    faces := [⟨6, [0, 4, 7, 3], 6, false⟩, ⟨7, [1, 2, 6, 5], 7, false⟩,
              ⟨8, [2, 3, 7, 6], 8, false⟩, ⟨9, [0, 1, 5, 4], 9, false⟩,
              ⟨10, [4, 5, 6, 7], 10, false⟩, ⟨11, [0, 3, 2, 1], 11, false⟩] }

/-- A one-node linked interior for exercising the on-plane ray-cast case:
root plane `z = 0`, front child a solid leaf holding the surface on plane 5,
back child the empty leaf. -/
def c4Interior : InteriorT :=
  { bspNodes := [⟨⟨true, true, 0⟩, ⟨true, false, 0⟩, 0⟩],
    bspSolidLeaves := [⟨1, 0⟩],
    solidLeafSurfaces := [some 0],
    surfaces := [⟨5⟩],
    planes := [⟨0, 0⟩],
    normals := [⟨0, 0, 1⟩] }

/-- A one-node linked interior for the lightmap shadow ray: root plane
`z = 100` far away from the scene, both children empty leaves, so the shadow
ray-cast always misses. -/
def c1Interior : InteriorT :=
  { bspNodes := [⟨⟨true, false, 0⟩, ⟨true, false, 0⟩, 0⟩],
    bspSolidLeaves := [],
    solidLeafSurfaces := [],
    surfaces := [],
    planes := [⟨0, -100⟩],
    normals := [⟨0, 0, 1⟩] }

/-- A packed 1×1 lightmap surface at atlas offset (0,0): dominant axis `z`
(normal `(0,0,1)`), `sc`/`tc` along x/y with the `1/(256·8)` scale of
`fill_in_lightmap_info`, world anchor `tri_points[0] = (0,0,0)`. -/
def c1Surf : LightmapSurfaceT :=
  { surfaceIndex := 0, sc := ⟨1 / 2048, 0, 0⟩, tc := ⟨0, 1 / 2048, 0⟩,
    dx := 0, dy := 0, offsetX := 0, offsetY := 0, width := 1, height := 1,
    normal := ⟨0, 0, 1⟩, triPoints := [⟨0, 0, 0⟩], lightmapIndex := 0 }

/-- A white point light 5 units above the demo surface with falloffs 1/9:
its lumel at world `(0,0,0)` gets attenuation `1 − (5−1)/(9−1) = 1/2`. -/
def c1Light : Light := .point ⟨0, 0, 5⟩ (makeColor 255 255 255) 100 1 9

/-- A terminal solid in-memory BSP node with one remaining brush whose single
face (id 7) is mapped to surface 5. -/
def c10Node : CSXNode :=
  CSXNode.mk [{ vertices := [], faces := [⟨0, [0], 7, false⟩] }]
    CSXChild.noChild CSXChild.noChild none true

/-- An empty linker state whose face-to-surface map sends face 7 to
surface 5. -/
def c10St : LinkState :=
  { interior := ⟨[], [], [], [], [], []⟩, normal2s := [], planeMap := [],
    normalMap := [], faceToSurface := [(7, 5)], mbOnly := false }

/-- The builder attributes a detail-level's fresh builders inherit in
`convert_csx`: the two ambient colors, the lumel scale (`light_scale`), the
geometry scale (`brush_scale`) and the light list. -/
def inheritsCfg (d : DetailCfg) (lights : List Light) (bld : BuilderB) : Prop :=
  bld.ambientColor = d.ambientColor ∧ bld.ambientColorEmerg = d.ambientColorEmerg ∧
    bld.lumelScale = d.lightScale ∧ bld.geometryScale = d.brushScale ∧ bld.lights = lights

/-- A demo detail level and brush list for the interior-split loop: the
second brush would push the face count to 16500 > 16383 and forces a flush. -/
def c8Detail : DetailCfg := ⟨⟨1, 2, 3⟩, ⟨4, 5, 6⟩, 8, 32⟩

/-- Demo brushes: 16000 faces, then 500 faces (forces the flush), then a
type-999 non-worldspawn brush that the filter drops. -/
def c8Brushes : List SceneBrush := [⟨0, 0, 16000⟩, ⟨0, 0, 500⟩, ⟨999, 7, 9000⟩]

/-- C5 (code_bug): for a point light with `falloff_inner 1`, `falloff_outer
10`, `calculate_intensity` returns `0` (not `1`) at distances strictly inside
the inner falloff — at the light's own position (distance 0) and at distance
`1/2` — because the early guard `len < falloff_inner` returns `0.0` before
the `else { 1.0 }` branch can. -/
theorem C5_intensity_inside_inner_is_zero :
    calculateIntensity (Light.point ⟨0, 0, 0⟩ (makeColor 255 255 255) 100 1 10) ⟨0, 0, 0⟩ =
      some 0 ∧
    calculateIntensity (Light.point ⟨0, 0, 0⟩ (makeColor 255 255 255) 100 1 10) ⟨0, 0, 1/2⟩ =
      some 0 := by
  exact ⟨of_decide_eq_true (by with_unfolding_all rfl), of_decide_eq_true (by with_unfolding_all rfl)⟩

/-- C9 (counterexample): with every property absent, `light_omni` defaults to
`falloff1 = 1000`, `falloff2 = 200`, and `light_emitter_point` to
`falloff1 = 0`, `falloff2 = 10` — not the uniform `falloff1 10`,
`falloff2 100` the claim states. -/
theorem C9_counterexample :
    lightNew ⟨"light_omni", none, []⟩ =
      some (Light.omni ⟨0, 0, 0⟩ (makeColor 255 255 255) 1000 200) ∧
    lightNew ⟨"light_emitter_point", none, []⟩ =
      some (Light.emitterPoint ⟨0, 0, 0⟩ 0 0 10 100) ∧
    (1000 : ℚ) ≠ 10 ∧ (200 : ℚ) ≠ 100 ∧ (0 : ℚ) ≠ 10 ∧ (10 : ℚ) ≠ 100 := by
  refine ⟨?_, ?_, ?_, ?_, ?_, ?_⟩ <;> exact of_decide_eq_true (by with_unfolding_all rfl)

/-- C9 (amended): the defaults `Light::new` substitutes for absent properties,
per variant: color `255 255 255`, secondary colors `0 0 0`, `intensity 100`,
`falloff_inner 1`, `falloff_outer 10`, `heading/pitch 0`, `angle_inner 30`,
`angle_outer 60`, `speed 2`, `spawnflags 3`, `theta 0.2`, `phi 0.4`,
`attack/decay/sustain 1`, `steps 0`, `pingpong false`, and falloff triples
`falloff1/2/3` of `0/10/100` for the two emitters, `1000/200` for omni, and
`10/100` for flicker, pulse, pulse2, runway, spot and strobe. -/
theorem C9_defaults_per_variant :
    lightNew ⟨"light_point", none, []⟩ =
      some (Light.point ⟨0, 0, 0⟩ (makeColor 255 255 255) 100 1 10) ∧
    lightNew ⟨"light_spotlight", none, []⟩ =
      some (Light.spotLight ⟨0, 0, 0⟩ (makeColor 255 255 255) 100 1 10 0 0 30 60) ∧
    lightNew ⟨"light_emitter_point", none, []⟩ =
      some (Light.emitterPoint ⟨0, 0, 0⟩ 0 0 10 100) ∧
    lightNew ⟨"light_emitter_spot", none, []⟩ =
      some (Light.emitterSpot ⟨0, 0, 0⟩ 0 0 10 100 (2/10) (4/10)) ∧
    lightNew ⟨"light_flicker", none, []⟩ =
      some (Light.flicker ⟨0, 0, 0⟩ (makeColor 255 255 255) (makeColor 0 0 0) (makeColor 0 0 0)
        (makeColor 0 0 0) (makeColor 0 0 0) 2 10 100 3) ∧
    lightNew ⟨"light_omni", none, []⟩ =
      some (Light.omni ⟨0, 0, 0⟩ (makeColor 255 255 255) 1000 200) ∧
    lightNew ⟨"light_pulse", none, []⟩ =
      some (Light.pulse ⟨0, 0, 0⟩ (makeColor 255 255 255) (makeColor 0 0 0) 2 10 100 3) ∧
    lightNew ⟨"light_pulse2", none, []⟩ =
      some (Light.pulse2 ⟨0, 0, 0⟩ (makeColor 255 255 255) (makeColor 0 0 0) 10 100 1 1 1 1 3) ∧
    lightNew ⟨"light_runway", none, []⟩ =
      some (Light.runway ⟨0, 0, 0⟩ (makeColor 255 255 255) 2 false 3 0 10 100) ∧
    lightNew ⟨"light_spot", none, []⟩ =
      some (Light.spot ⟨0, 0, 0⟩ (makeColor 255 255 255) 10 100 10 100) ∧
    lightNew ⟨"light_strobe", none, []⟩ =
      some (Light.strobe ⟨0, 0, 0⟩ (makeColor 255 255 255) (makeColor 0 0 0) 2 3 10 100) := by
  refine ⟨?_, ?_, ?_, ?_, ?_, ?_, ?_, ?_, ?_, ?_, ?_⟩ <;> exact of_decide_eq_true (by with_unfolding_all rfl)

/-- C2 (counterexample): in the L-shape scene, cube B does contain a face on
the flipped candidate plane 0 (the source's own scan finds it), yet rating
plane 0 over the node sums to `(front, back, splits, coplanar, tiny) =
(1, 1, 0, 1, 0)`: cube A contributes the coplanar tuple and marks the plane
considered for the whole node, so cube B is rated by vertex distances and
contributes `(1, 0, 0, 0, 0)`, not `(1, 0, 0, 1, 0)`; the summed coplanar
count is `1`, not `2`. -/
theorem C2_counterexample :
    coplanarScan lShapePlanes 0 cubeB.faces = some ⟨1, 0, 0, 1, 0⟩ ∧
    (calculateSplitRating (1/10000) lShapePlanes 0 cubeB [0]).1 = ⟨1, 0, 0, 0, 0⟩ ∧
    splitRatingSum (1/10000) lShapePlanes 0 [cubeA, cubeB] = ⟨1, 1, 0, 1, 0⟩ ∧
    (⟨1, 1, 0, 1, 0⟩ : SplitRating).coplanar ≠ 2 := by
  refine ⟨?_, ?_, ?_, ?_⟩ <;> exact of_decide_eq_true (by with_unfolding_all rfl)

/-- C3 (counterexample): in the two-brush L-shape node, plane 0 is a
candidate splitter (it is the plane of an unused face), the source's
"Not in brush??" assertion condition holds for it, and yet cube B contains no
face on plane 0; in fact, since `build_bsp` allocates a distinct plane id per
face, EVERY candidate plane of this node fails the claimed
every-brush-contains-a-face-on-P property. -/
theorem C3_counterexample :
    planeInBrushList [cubeA, cubeB] 0 = true ∧
    0 ∈ nodeCandidatePlanes [cubeA, cubeB] ∧
    (cubeB.faces.any fun f => f.planeId == 0) = false ∧
    ((nodeCandidatePlanes [cubeA, cubeB]).all fun p =>
      !([cubeA, cubeB].all fun b => b.faces.any fun f => f.planeId == p)) = true := by
  refine ⟨?_, ?_, ?_, ?_⟩ <;> exact of_decide_eq_true (by with_unfolding_all rfl)

/-- C6 (counterexample): with `POINT_EPSILON = 2⁻²⁰` (all values exactly
representable in `f32`), interning `(0,0,0)`, `(2⁻²⁰,0,0)`, `(3·2⁻²¹,0,0)` in
one build assigns indices `[0, 0, 1]`: the second point is deduplicated to
the first (and never stored), so the third — strictly within `POINT_EPSILON`
of the second on every axis — misses the map and gets a fresh index. -/
theorem C6_counterexample :
    (internPoints (1/1048576) [⟨0, 0, 0⟩, ⟨1/1048576, 0, 0⟩, ⟨3/2097152, 0, 0⟩]
      emptyPointPool).1 = [0, 0, 1] ∧
    |(1/1048576 : ℚ) - 3/2097152| < 1/1048576 ∧
    |(0 : ℚ) - 0| < 1/1048576 ∧ (0 : ℕ) ≠ 1 := by
  refine ⟨?_, ?_, ?_, ?_⟩ <;> exact of_decide_eq_true (by with_unfolding_all rfl)

/-- Both tuples the coplanar face scan can return carry `coplanar = 1`. -/
theorem coplanarScan_coplanar_eq_one (planeList : List PlaneQ) (planeId : ℕ) :
    ∀ (faces : List CSXFace) (r : SplitRating),
      coplanarScan planeList planeId faces = some r → r.coplanar = 1 := by
  intro faces
  induction faces with
  | nil => intro r h; simp [coplanarScan] at h
  | cons f fs ih =>
    intro r h
    rw [coplanarScan] at h
    split at h
    · cases h; rfl
    · simp only [] at h
      split at h
      · cases h; rfl
      · exact ih r h

/-- The vertex-distance rating never contributes to the coplanar counter. -/
theorem distanceRating_coplanar (eps : ℚ) (planeList : List PlaneQ) (planeId : ℕ)
    (b : CSXBrush) : (distanceRating eps planeList planeId b).coplanar = 0 := rfl

/-- Threading the shared considered set bounds the summed coplanar counter:
once the candidate id is in the set no later brush can contribute, so a whole
fold contributes at most one. -/
theorem splitRatingFold_coplanar_le (eps : ℚ) (planeList : List PlaneQ) (planeId : ℕ) :
    ∀ (bs : List CSXBrush) (c : List ℕ),
      (splitRatingFold eps planeList planeId bs c).1.coplanar ≤
        (if planeId ∈ c then 0 else 1) := by
  intro bs
  induction bs with
  | nil =>
    intro c
    simp only [splitRatingFold]
    split <;> norm_num
  | cons b bs ih =>
    intro c
    rw [splitRatingFold]
    by_cases hc : planeId ∈ c
    · simp only [calculateSplitRating, if_pos hc]
      have hrest := ih c
      rw [if_pos hc] at hrest
      have hd := distanceRating_coplanar eps planeList planeId b
      simp only [SplitRating.add, if_pos hc]
      omega
    · simp only [calculateSplitRating, if_neg hc]
      cases hscan : coplanarScan planeList planeId b.faces with
      | none =>
        have hrest := ih c
        rw [if_neg hc] at hrest
        have hd := distanceRating_coplanar eps planeList planeId b
        simp only [SplitRating.add, if_neg hc]
        omega
      | some r =>
        have hr := coplanarScan_coplanar_eq_one planeList planeId b.faces r hscan
        have hrest := ih (planeId :: c)
        rw [if_pos (List.mem_cons_self planeId c)] at hrest
        simp only [SplitRating.add, if_neg hc]
        omega

/-- C2 (amended): when a candidate plane is rated over a node's brush list,
the first brush (in consideration order) that contains a face on `P` or `-P`
contributes its coplanar tuple and inserts `P.id` into the shared set; every
later brush — of the whole node, not merely sibling faces of the same brush —
is rated by vertex distances, so the summed coplanar counter is at most `1`.
In the L-shape scene the rating of the shared plane over the two cubes is
`(front, back, splits, coplanar, tiny) = (1, 1, 0, 1, 0)`: coplanar is `1`,
not `2`. -/
theorem C2_coplanar_counted_once :
    (∀ (eps : ℚ) (planeList : List PlaneQ) (planeId : ℕ) (brushes : List CSXBrush),
      (splitRatingSum eps planeList planeId brushes).coplanar ≤ 1) ∧
    splitRatingSum (1/10000) lShapePlanes 0 [cubeA, cubeB] = ⟨1, 1, 0, 1, 0⟩ := by
  constructor
  · intro eps planeList planeId brushes
    have h := splitRatingFold_coplanar_le eps planeList planeId brushes []
    simpa [splitRatingSum] using h
  · exact of_decide_eq_true (by with_unfolding_all rfl)

/-- C3 (amended): whatever splitter plane the selection strategies return is
the plane id of some not-yet-used face of the node's brush list, and for any
such plane the condition of the `assert!(plane_in_brush, "Not in brush??")`
in `split_brush_list` — SOME brush of the node contains a face on the plane —
holds; the assertion checks existence over the brush list, not the claimed
every-brush property. -/
theorem C3_candidate_plane_in_some_brush (brushes : List CSXBrush) (p : ℕ)
    (hp : p ∈ nodeCandidatePlanes brushes) : planeInBrushList brushes p = true := by
  simp only [nodeCandidatePlanes, List.mem_map, List.mem_filter, List.mem_flatten] at hp
  obtain ⟨f, ⟨⟨faces, ⟨⟨b, hb, rfl⟩, hf⟩⟩, _⟩, rfl⟩ := hp
  simp only [planeInBrushList, List.any_eq_true]
  exact ⟨b, hb, f, hf, by simp⟩

/-- C3 witness: plane 4 is a candidate of the L-shape node and the assertion
condition holds for it. -/
theorem C3_witness : planeInBrushList [cubeA, cubeB] 4 = true :=
  C3_candidate_plane_in_some_brush [cubeA, cubeB] 4
    (of_decide_eq_true (by with_unfolding_all rfl))

/-- C6 (amended): an interned point that approximately matches (component-wise
within `POINT_EPSILON`, equal coarse hash bucket) some stored key of the point
map is assigned a stored matching key's index and allocates nothing; in
particular two points whose lookups hit the same entry share an index.  (The
original claim fails because a point deduplicated to an earlier one is never
itself stored, so a later point close only to it can still miss the map.) -/
theorem C6_export_point_dedup (eps : ℚ) (pool : PointPool) (p : Vec3)
    (h : ∃ e ∈ pool.pointMap,
      ordPointHash e.1 = ordPointHash p ∧ ordPointEq eps e.1 p = true) :
    (∃ e ∈ pool.pointMap, lookupPoint eps pool p = some e.2 ∧
      ordPointEq eps e.1 p = true ∧ ordPointHash e.1 = ordPointHash p) ∧
    exportPoint eps pool p = ((lookupPoint eps pool p).getD 0, pool) := by
  have hsome : (pool.pointMap.find? fun e =>
      ordPointHash e.1 == ordPointHash p && ordPointEq eps e.1 p).isSome := by
    rw [List.find?_isSome]
    obtain ⟨e, he, h1, h2⟩ := h
    exact ⟨e, he, by simp [h1, h2]⟩
  obtain ⟨e, hfind⟩ := Option.isSome_iff_exists.mp hsome
  have hmem := List.mem_of_find?_eq_some hfind
  have hpred := List.find?_some hfind
  simp only [Bool.and_eq_true, beq_iff_eq] at hpred
  constructor
  · exact ⟨e, hmem, by simp [lookupPoint, hfind], hpred.2, hpred.1⟩
  · simp [exportPoint, lookupPoint, hfind]

/-- C6 witness: a pool storing the origin, probed with a point within
`2⁻²⁰` of it in the same bucket, returns the stored index 0 unchanged. -/
theorem C6_witness :
    exportPoint (1/1048576) ⟨[(⟨0, 0, 0⟩, 0)], [⟨0, 0, 0⟩], [255]⟩ ⟨1/1048576, 0, 0⟩ =
      ((lookupPoint (1/1048576) ⟨[(⟨0, 0, 0⟩, 0)], [⟨0, 0, 0⟩], [255]⟩
        ⟨1/1048576, 0, 0⟩).getD 0,
       ⟨[(⟨0, 0, 0⟩, 0)], [⟨0, 0, 0⟩], [255]⟩) :=
  (C6_export_point_dedup (1/1048576) ⟨[(⟨0, 0, 0⟩, 0)], [⟨0, 0, 0⟩], [255]⟩ ⟨1/1048576, 0, 0⟩
    ⟨(⟨0, 0, 0⟩, 0), of_decide_eq_true (by with_unfolding_all rfl),
      of_decide_eq_true (by with_unfolding_all rfl),
      of_decide_eq_true (by with_unfolding_all rfl)⟩).2

/-- The fan-mask loop produces the all-ones mask `(1 << N) − 1`. -/
theorem fanMask_eq_two_pow_sub_one : ∀ n : ℕ, fanMask n = 2 ^ n - 1 := by
  intro n
  induction n with
  | zero => rfl
  | succ n ih =>
    have hstep : fanMask (n + 1) = fanMask n ||| (1 <<< n) := by
      simp [fanMask, List.range_succ]
    rw [hstep, ih, Nat.shiftLeft_eq, one_mul]
    apply Nat.eq_of_testBit_eq
    intro i
    rw [Nat.testBit_lor, Nat.testBit_two_pow_sub_one, Nat.testBit_two_pow_sub_one,
      Nat.testBit_two_pow]
    by_cases h1 : i < n
    · simp [h1, (by omega : i < n + 1)]
    · by_cases h2 : n = i
      · subst h2
        simp [(by omega : ¬ n < n), (by omega : n < n + 1)]
      · have h3 : ¬ i < n + 1 := by omega
        simp [h1, h2, h3]

/-- C7: the emitted vertex ordering of `export_surface` — positions 0 and 1
copy `hull_points[winding[i]]` in order; for `i ≥ 2` even slots take
`hull_points[winding[N−1−(i−2)/2]]` and odd slots
`hull_points[winding[(i+1)/2]]` — and the surface's fan mask is
`(1 << N) − 1`. -/
theorem C7_surface_winding_and_fan_mask (hullPoints winding : List ℕ) (i : ℕ)
    (hi : i < winding.length) :
    ((i < 2 → (exportSurfaceIndices hullPoints winding).getD i 0 =
        hullPoints.getD (winding.getD i 0) 0) ∧
      (2 ≤ i → i % 2 = 0 → (exportSurfaceIndices hullPoints winding).getD i 0 =
        hullPoints.getD (winding.getD (winding.length - 1 - (i - 2) / 2) 0) 0) ∧
      (2 ≤ i → i % 2 = 1 → (exportSurfaceIndices hullPoints winding).getD i 0 =
        hullPoints.getD (winding.getD ((i + 1) / 2) 0) 0)) ∧
    fanMask winding.length = 2 ^ winding.length - 1 := by
  have hmap : (exportSurfaceIndices hullPoints winding).getD i 0 =
      if i ≥ 2 then
        if i % 2 = 0 then
          hullPoints.getD (winding.getD (winding.length - 1 - (i - 2) / 2) 0) 0
        else hullPoints.getD (winding.getD ((i + 1) / 2) 0) 0
      else hullPoints.getD (winding.getD i 0) 0 := by
    rw [exportSurfaceIndices, List.getD_eq_getElem?_getD, List.getElem?_map,
      List.getElem?_range hi]
    rfl
  refine ⟨⟨?_, ?_, ?_⟩, fanMask_eq_two_pow_sub_one winding.length⟩
  · intro h2
    rw [hmap, if_neg (by omega)]
  · intro h2 hpar
    rw [hmap, if_pos h2, if_pos hpar]
  · intro h2 hpar
    rw [hmap, if_pos h2, if_neg (by omega)]

/-- C7 witness: on the 4-vertex winding `[0,1,2,3]` with hull points
`[10,11,12,13,14]`, slot 2 (even) takes `hull_points[winding[3]] = 13`. -/
theorem C7_witness :
    (exportSurfaceIndices [10, 11, 12, 13, 14] [0, 1, 2, 3]).getD 2 0 =
      [10, 11, 12, 13, 14].getD ([0, 1, 2, 3].getD ([0, 1, 2, 3].length - 1 - (2 - 2) / 2) 0) 0 :=
  (C7_surface_winding_and_fan_mask [10, 11, 12, 13, 14] [0, 1, 2, 3] 2
    (by decide)).1.2.1 (by decide) (by decide)

/-- C8: in the interior-split loop, a brush whose faces would push the
running count above 16383 first flushes the current builder and lands in a
fresh builder inheriting the detail level's ambient colors, lumel scale,
geometry scale and lights; consequently, at every point of the loop the
accumulated face count stays at most 16383 provided every (filtered) brush
individually fits under the limit, and the current builder always carries the
inherited attributes. -/
theorem C8_interior_split_invariant (d : DetailCfg) (lights : List Light)
    (bs : List SceneBrush)
    (hfc : ∀ b ∈ bs.filter brushFilter, b.faceCount ≤ 16383) :
    (∀ (st : ConvertState) (b : SceneBrush), st.curFaceCount + b.faceCount > 16383 →
      convertStep d lights st b =
        ⟨{ newBuilderB d lights with brushes := [b] }, b.faceCount,
          st.splitInteriors ++ [st.curBuilder]⟩) ∧
    (∀ pfx rest : List SceneBrush, bs.filter brushFilter = pfx ++ rest →
      (pfx.foldl (convertStep d lights) ⟨newBuilderB d lights, 0, []⟩).curFaceCount ≤ 16383 ∧
      inheritsCfg d lights
        (pfx.foldl (convertStep d lights) ⟨newBuilderB d lights, 0, []⟩).curBuilder) := by
  constructor
  · intro st b h
    simp [convertStep, if_pos h, newBuilderB]
  · have main : ∀ (l : List SceneBrush) (st : ConvertState),
        (∀ b ∈ l, b.faceCount ≤ 16383) → st.curFaceCount ≤ 16383 →
        inheritsCfg d lights st.curBuilder →
        (l.foldl (convertStep d lights) st).curFaceCount ≤ 16383 ∧
        inheritsCfg d lights (l.foldl (convertStep d lights) st).curBuilder := by
      intro l
      induction l with
      | nil => intro st _ h1 h2; exact ⟨h1, h2⟩
      | cons b l ih =>
        intro st hb h1 h2
        have hble : b.faceCount ≤ 16383 := hb b (by simp)
        rw [List.foldl_cons]
        apply ih
        · intro x hx
          exact hb x (by simp [hx])
        · by_cases hc : st.curFaceCount + b.faceCount > 16383
          · simp only [convertStep, if_pos hc]
            omega
          · simp only [convertStep, if_neg hc]
            omega
        · by_cases hc : st.curFaceCount + b.faceCount > 16383
          · simp only [convertStep, if_pos hc]
            simp [inheritsCfg, newBuilderB]
          · simp only [convertStep, if_neg hc]
            exact h2
    intro pfx rest hsplit
    apply main pfx ⟨newBuilderB d lights, 0, []⟩
    · intro b hbp
      exact hfc b (hsplit ▸ List.mem_append_left rest hbp)
    · norm_num
    · simp [inheritsCfg, newBuilderB]

/-- C8 witness: on the demo detail level, the 500-face brush forces exactly
one flush and the loop's final running count 500 stays under the limit. -/
theorem C8_witness :
    (convertLoop c8Detail [] c8Brushes).curFaceCount ≤ 16383 ∧
    (convertLoop c8Detail [] c8Brushes).splitInteriors.length = 1 ∧
    (convertLoop c8Detail [] c8Brushes).curFaceCount = 500 :=
  ⟨((C8_interior_split_invariant c8Detail [] c8Brushes
      (of_decide_eq_true (by with_unfolding_all rfl))).2
      (c8Brushes.filter brushFilter) [] (by simp)).1,
    of_decide_eq_true (by with_unfolding_all rfl),
    of_decide_eq_true (by with_unfolding_all rfl)⟩

/-- C4: in the auditor's traversal `Interior::bsp_ray_cast`, when the signed
distances of both segment endpoints against an interior node's plane compare
equal to zero, the `(Equal, Equal)` arm tries the front child and then the
back child with the same target plane and segment, reporting a hit exactly
when either subtree does. -/
theorem C4_ray_cast_on_plane_tries_both (itr : InteriorT) (fuel : ℕ) (node : BSPIndexT)
    (target : ℕ) (s e : Vec3) (hleaf : node.leaf = false)
    (hs : (nodePlaneVals itr node.index).1.dot s + (nodePlaneVals itr node.index).2 = 0)
    (he : (nodePlaneVals itr node.index).1.dot e + (nodePlaneVals itr node.index).2 = 0) :
    bspRayCast itr (fuel + 1) node target s e =
      (bspRayCast itr fuel
          ((itr.bspNodes.getD node.index ⟨emptyLeafIndex, emptyLeafIndex, 0⟩).frontIndex)
          target s e ||
        bspRayCast itr fuel
          ((itr.bspNodes.getD node.index ⟨emptyLeafIndex, emptyLeafIndex, 0⟩).backIndex)
          target s e) := by
  simp only [nodePlaneVals] at hs he
  rw [bspRayCast]
  rw [hleaf]
  simp only [Bool.not_false, if_true]
  rw [hs, he]
  simp only [cmpQ, lt_irrefl, if_false, if_pos rfl]
  cases hf : bspRayCast itr fuel
      ((itr.bspNodes.getD node.index ⟨emptyLeafIndex, emptyLeafIndex, 0⟩).frontIndex)
      target s e <;>
    cases hb : bspRayCast itr fuel
        ((itr.bspNodes.getD node.index ⟨emptyLeafIndex, emptyLeafIndex, 0⟩).backIndex)
        target s e <;>
      simp [hf, hb]

/-- C4 witness: a segment lying in the root plane `z = 0` of the demo
interior is routed to both children, and the traversal hits (the front child
solid leaf holds the target plane 5). -/
theorem C4_witness :
    bspRayCast c4Interior 2 ⟨false, false, 0⟩ 5 ⟨1, 2, 0⟩ ⟨3, -1, 0⟩ =
      (bspRayCast c4Interior 1
          ((c4Interior.bspNodes.getD 0 ⟨emptyLeafIndex, emptyLeafIndex, 0⟩).frontIndex)
          5 ⟨1, 2, 0⟩ ⟨3, -1, 0⟩ ||
        bspRayCast c4Interior 1
          ((c4Interior.bspNodes.getD 0 ⟨emptyLeafIndex, emptyLeafIndex, 0⟩).backIndex)
          5 ⟨1, 2, 0⟩ ⟨3, -1, 0⟩) ∧
    bspRayCast c4Interior 2 ⟨false, false, 0⟩ 5 ⟨1, 2, 0⟩ ⟨3, -1, 0⟩ = true :=
  ⟨C4_ray_cast_on_plane_tries_both c4Interior 1 ⟨false, false, 0⟩ 5 ⟨1, 2, 0⟩ ⟨3, -1, 0⟩
      rfl (by with_unfolding_all rfl) (by with_unfolding_all rfl),
    of_decide_eq_true (by with_unfolding_all rfl)⟩

/-- Plane export only touches the plane/normal pools, never the solid
leaves. -/
theorem exportPlane_preserves_solid_leaves (pointEps planeEps : ℚ) (st : LinkState)
    (p : PlaneQ) :
    (exportPlane pointEps planeEps st p).2.interior.bspSolidLeaves =
      st.interior.bspSolidLeaves := by
  cases h1 : lookupPlaneMap planeEps st.planeMap p with
  | some v => simp [exportPlane, h1]
  | none =>
    cases h2 : lookupPlaneMap planeEps st.planeMap (flipPlane p) with
    | some v => simp [exportPlane, h1, h2]
    | none =>
      cases h3 : lookupVecMap pointEps st.normalMap p.normal with
      | some v => simp [exportPlane, h1, h2, h3]
      | none => simp [exportPlane, h1, h2, h3]

mutual

/-- Linking a node preserves the solid-leaf invariant: every pushed
`BSPSolidLeaf` has at least one surface. -/
theorem exportBspNodeLeavesAux (pointEps planeEps : ℚ) (planeRemap : List PlaneQ) :
    ∀ (n : CSXNode) (st : LinkState),
      (∀ l ∈ st.interior.bspSolidLeaves, 1 ≤ l.surfaceCount) →
      ∀ l ∈ (exportBspNode pointEps planeEps planeRemap n st).2.interior.bspSolidLeaves,
        1 ≤ l.surfaceCount
  | CSXNode.mk brushList front back planeIdx solid, st, h => by
    cases planeIdx with
    | none =>
      cases hsolid : solid with
      | false =>
        have hleaves : (exportBspNode pointEps planeEps planeRemap
            (CSXNode.mk brushList front back none false) st).2.interior.bspSolidLeaves =
            st.interior.bspSolidLeaves := by
          simp [exportBspNode]
        intro l hl
        rw [hleaves] at hl
        exact h l hl
      | true =>
        by_cases hlen : (gatherLeafSurfaces st.faceToSurface brushList).length = 0
        · have hleaves : (exportBspNode pointEps planeEps planeRemap
              (CSXNode.mk brushList front back none true) st).2.interior.bspSolidLeaves =
              st.interior.bspSolidLeaves := by
            simp [exportBspNode, hlen]
          intro l hl
          rw [hleaves] at hl
          exact h l hl
        · have hleaves : (exportBspNode pointEps planeEps planeRemap
              (CSXNode.mk brushList front back none true) st).2.interior.bspSolidLeaves =
              st.interior.bspSolidLeaves ++
                [⟨(gatherLeafSurfaces st.faceToSurface brushList).length,
                  st.interior.solidLeafSurfaces.length⟩] := by
            simp [exportBspNode, hlen]
          intro l hl
          rw [hleaves] at hl
          rcases List.mem_append.mp hl with hmem | hsing
          · exact h l hmem
          · rw [List.mem_singleton.mp hsing]
            exact Nat.one_le_iff_ne_zero.mpr hlen
    | some pIdx =>
      have h1 : ∀ l' ∈ (exportPlane pointEps planeEps
          { st with interior := { st.interior with
              bspNodes := st.interior.bspNodes ++
                [⟨emptyLeafIndex, emptyLeafIndex, 0⟩] } }
          (planeAt planeRemap pIdx)).2.interior.bspSolidLeaves,
          1 ≤ l'.surfaceCount := by
        rw [exportPlane_preserves_solid_leaves]
        exact h
      have h2 := exportBspChildLeavesAux pointEps planeEps planeRemap front _ h1
      have h3 := exportBspChildLeavesAux pointEps planeEps planeRemap back _ h2
      intro l hl
      exact h3 l hl

/-- Child version of the solid-leaf invariant. -/
theorem exportBspChildLeavesAux (pointEps planeEps : ℚ) (planeRemap : List PlaneQ) :
    ∀ (c : CSXChild) (st : LinkState),
      (∀ l ∈ st.interior.bspSolidLeaves, 1 ≤ l.surfaceCount) →
      ∀ l ∈ (exportBspChild pointEps planeEps planeRemap c st).2.interior.bspSolidLeaves,
        1 ≤ l.surfaceCount
  | CSXChild.noChild, _, h => h
  | CSXChild.child n, st, h => exportBspNodeLeavesAux pointEps planeEps planeRemap n st h

end

/-- C10: a terminal solid node whose remaining brushes reference no exported
surfaces returns the shared empty-leaf sentinel `{leaf: true, solid: false,
index: 0}` without touching the output; and linking any tree into a state
whose solid leaves all have at least one surface (in particular, the empty
initial state) only ever pushes `BSPSolidLeaf` records with
`surface_count ≥ 1`. -/
theorem C10_empty_solid_leaf_sentinel (pointEps planeEps : ℚ) (planeRemap : List PlaneQ) :
    (∀ (brushes : List CSXBrush) (fr bk : CSXChild) (st : LinkState),
      gatherLeafSurfaces st.faceToSurface brushes = [] →
      exportBspNode pointEps planeEps planeRemap (CSXNode.mk brushes fr bk none true) st =
        (emptyLeafIndex, st)) ∧
    (∀ (n : CSXNode) (st : LinkState),
      (∀ l ∈ st.interior.bspSolidLeaves, 1 ≤ l.surfaceCount) →
      ∀ l ∈ (exportBspNode pointEps planeEps planeRemap n st).2.interior.bspSolidLeaves,
        1 ≤ l.surfaceCount) := by
  constructor
  · intro brushes fr bk st hg
    simp [exportBspNode, hg]
  · intro n st h
    exact exportBspNodeLeavesAux pointEps planeEps planeRemap n st h

/-- C10 witness: linking the demo terminal solid node (one brush, one face
mapped to surface 5) into the empty state pushes one leaf, whose surface
count is at least 1 by the invariant. -/
theorem C10_witness :
    1 ≤ (((exportBspNode 0 0 [] c10Node c10St).2.interior.bspSolidLeaves).getD 0
      ⟨0, 0⟩).surfaceCount := by
  have hmem : (((exportBspNode 0 0 [] c10Node c10St).2.interior.bspSolidLeaves).getD 0
      ⟨0, 0⟩) ∈ (exportBspNode 0 0 [] c10Node c10St).2.interior.bspSolidLeaves :=
    of_decide_eq_true (by with_unfolding_all rfl)
  exact (C10_empty_solid_leaf_sentinel 0 0 []).2 c10Node c10St
    (fun l hl => absurd hl (List.not_mem_nil l)) _ hmem

/-- C1 (amended): `DIFBuilder::build` fills every pushed lightmap atlas with
the scene's ambient color unconditionally — every pixel of every atlas that
`compute_lightmaps` pushes equals the byte-cast ambient color, whatever the
light list — because the invocation of the lumel rasterizer `LightMap::new`
is commented out; the rasterizer itself still exists in `lightmap.rs` but is
never called, and no configuration selects it. -/
theorem C1_build_lightmaps_are_ambient (lights : List Light) (ambient : Vec3)
    (n i x y : ℕ) (hi : i < n) (_hx : x < 256) (_hy : y < 256) :
    ((computeLightmapsLightMaps lights ambient n).getD i (emptyLightmap 0 0 0)) x y =
      ⟨ratToU8 ambient.x, ratToU8 ambient.y, ratToU8 ambient.z⟩ := by
  unfold computeLightmapsLightMaps
  rw [List.getD_eq_getElem?_getD, List.getElem?_map, List.getElem?_range hi]
  rfl

/-- C1 witness: with the demo light and ambient color `(2,3,4)`, pixel (7,9)
of the second of two pushed atlases is the ambient byte triple. -/
theorem C1_witness :
    ((computeLightmapsLightMaps [c1Light] ⟨2, 3, 4⟩ 2).getD 1 (emptyLightmap 0 0 0)) 7 9 =
      ⟨ratToU8 2, ratToU8 3, ratToU8 4⟩ :=
  C1_build_lightmaps_are_ambient [c1Light] ⟨2, 3, 4⟩ 2 1 7 9 (by decide) (by decide)
    (by decide)

/-- C1 (counterexample): with a white point light over the demo surface, the
atlas `build` pushes is exactly the black ambient fill and coincides with the
no-lights output, while the repo's own (uncalled) rasterizer `LightMap::new`
computes `(127,127,127)` at that surface's lumel — so rasterization is not
what `build` does, and the ambient fill is not a mere selectable fallback. -/
theorem C1_counterexample :
    computeLightmapsLightMaps [c1Light] ⟨0, 0, 0⟩ 1 = [emptyLightmap 0 0 0] ∧
    computeLightmapsLightMaps [] ⟨0, 0, 0⟩ 1 =
      computeLightmapsLightMaps [c1Light] ⟨0, 0, 0⟩ 1 ∧
    (emptyLightmap 0 0 0) 0 0 = ⟨0, 0, 0⟩ ∧
    (lightMapNewPixels c1Interior [c1Surf] [c1Light] 0 8).map (fun px => px 0 0) =
      some ⟨127, 127, 127, 255⟩ ∧
    (127 : ℕ) ≠ 0 := by
  refine ⟨by with_unfolding_all rfl, by with_unfolding_all rfl, rfl,
    of_decide_eq_true (by with_unfolding_all rfl), by decide⟩
